import Mathlib

/-!
Verification of the Hanime_bot repository (src/bot.py) against its
natural-language specification.  The Python source is shallowly embedded:
the regex scanning of `extract_video_url_from_html` is modelled by a small
greedy-with-backtracking matcher covering exactly the constructs used by the
source patterns, `json.loads` by a parser for the flat JSON objects those
patterns can produce, and the stateful parts (retry decorator, download
routine, progress hook, file gate, command guards) by explicit state passing.
-/

namespace HanimeBot

/-! ## Character classes and regex tokens

The source patterns (bot.py lines 159-165 and 178-183) use only: literal
characters (case-insensitive under re.IGNORECASE for method 2), a single
optional character (the s of https?), single-character classes, and greedy
star or plus over a character class.  Python re semantics for this fragment:
leftmost match, greedy quantifiers with backtracking, non-overlapping scan.
-/

structure CClass where
  neg : Bool
  chars : List Char
deriving DecidableEq

def cmatch (cl : CClass) (c : Char) : Bool :=
  if cl.neg then !(cl.chars.contains c) else cl.chars.contains c

inductive QTok
  | lit (ci : Bool) (c : Char)
  | opt (ci : Bool) (c : Char)
  | one (cl : CClass)
  | rep (cl : CClass) (mn : Nat)
deriving DecidableEq

def charEq (ci : Bool) (a b : Char) : Bool :=
  if ci then a.toLower == b.toLower else a == b

/-- Length of the maximal prefix of the input made of class characters. -/
def runLen (cl : CClass) : List Char → Nat
  | [] => 0
  | c :: cs => if cmatch cl c then runLen cl cs + 1 else 0

/-- The list n, n-1, ..., 0: candidate repetition counts, greedy first. -/
def countdown : Nat → List Nat
  | 0 => [0]
  | n + 1 => (n + 1) :: countdown n

/-- All lengths of prefixes of the input matched by the token list, in the
backtracking priority order of the Python engine (greedy quantifiers try the
longest repetition first, an optional character is tried present first). -/
def qmatches : List QTok → List Char → List Nat
  | [], _ => [0]
  | QTok.lit _ _ :: _, [] => []
  | QTok.lit ci c :: ts, x :: xs =>
      if charEq ci c x then (qmatches ts xs).map (fun n => n + 1) else []
  | QTok.opt _ _ :: ts, [] => qmatches ts []
  | QTok.opt ci c :: ts, x :: xs =>
      (if charEq ci c x then (qmatches ts xs).map (fun n => n + 1) else []) ++
        qmatches ts (x :: xs)
  | QTok.one _ :: _, [] => []
  | QTok.one cl :: ts, x :: xs =>
      if cmatch cl x then (qmatches ts xs).map (fun n => n + 1) else []
  | QTok.rep cl mn :: ts, s =>
      ((countdown (runLen cl s)).map (fun i =>
        if mn ≤ i then (qmatches ts (s.drop i)).map (fun n => n + i) else [])).flatten

/-- A source pattern: tokens before the capture group, the group itself and
the tokens after it.  A pattern without a group stores everything in pre
(findall then returns the whole match, as in Python). -/
structure Pat where
  pre : List QTok
  grp : List QTok
  post : List QTok
  hasGrp : Bool

/-- All matches of the pattern anchored at the start of the input, priority
order, paired with total consumed length and the captured (or whole) text. -/
def patMatches (p : Pat) (s : List Char) : List (Nat × List Char) :=
  ((qmatches p.pre s).map (fun n1 =>
    ((qmatches p.grp (s.drop n1)).map (fun n2 =>
      (qmatches p.post ((s.drop n1).drop n2)).map (fun n3 =>
        (n1 + n2 + n3,
         if p.hasGrp then (s.drop n1).take n2
         else s.take (n1 + n2 + n3))))).flatten)).flatten

def patMatchAt (p : Pat) (s : List Char) : Option (Nat × List Char) :=
  (patMatches p s).head?

/-- re.findall: scan left to right, emit the leftmost match, resume after it.
The source patterns cannot match the empty string (each carries a mandatory
literal), so the zero-length guard only keeps the scan well-founded.  The
scan advances at least one character per step, so fuel equal to the input
length is exact; fuel recursion keeps the function kernel-reducible. -/
def findallGo (p : Pat) : Nat → List Char → List (List Char)
  | 0, _ => []
  | _, [] => []
  | fuel + 1, x :: rest =>
      match patMatchAt p (x :: rest) with
      | some (n, g) =>
          if n = 0 then g :: findallGo p fuel rest
          else g :: findallGo p fuel ((x :: rest).drop n)
      | none => findallGo p fuel rest

def findallL (p : Pat) (s : List Char) : List (List Char) :=
  findallGo p s.length s

def findall (p : Pat) (s : String) : List String :=
  (findallL p s.data).map (fun l => String.mk l)

/-! ## The concrete patterns of extract_video_url_from_html -/

def wsChars : List Char := [' ', Char.ofNat 9, Char.ofNat 10, Char.ofNat 13, Char.ofNat 11, Char.ofNat 12]

def quoteChars : List Char := ['"', Char.ofNat 39]

def clsNotWsQ : CClass := { neg := true, chars := wsChars ++ quoteChars }

def clsNotQ : CClass := { neg := true, chars := quoteChars }

def clsQuote : CClass := { neg := false, chars := quoteChars }

def clsWs : CClass := { neg := false, chars := wsChars }

def clsNotBrace : CClass := { neg := true, chars := ['{', '}'] }

def lits (ci : Bool) (s : String) : List QTok := s.data.map (QTok.lit ci)

/-- Tokens for the shared core https?://CLASS+\.m3u8CLASS* of the patterns. -/
def urlCore (cl : CClass) : List QTok :=
  lits true "http" ++ [QTok.opt true 's'] ++ lits true "://" ++
  [QTok.rep cl 1] ++ lits true ".m3u8" ++ [QTok.rep cl 0]

def pat1 : Pat := { pre := urlCore clsNotWsQ, grp := [], post := [], hasGrp := false }

def pat2 : Pat :=
  { pre := [QTok.one clsQuote], grp := urlCore clsNotQ,
    post := [QTok.one clsQuote], hasGrp := true }

/-- The keyed patterns source\s*:\s*[quote](...)[quote] etc of method 2. -/
def keyPat (k : String) : Pat :=
  { pre := lits true k ++ [QTok.rep clsWs 0, QTok.lit true ':', QTok.rep clsWs 0, QTok.one clsQuote],
    grp := urlCore clsNotQ, post := [QTok.one clsQuote], hasGrp := true }

/-- The five patterns of method 2 (bot.py lines 159-165), in source order. -/
def m2_patterns : List Pat := [pat1, pat2, keyPat "source", keyPat "url", keyPat "video_url"]

/-- A JSON-fragment pattern of method 3 (bot.py lines 178-183): an opening
brace, any brace-free run, the quoted key, a brace-free run, the literal
.m3u8, a brace-free run and the closing brace. -/
def jsonPat (k : String) : Pat :=
  { pre := [QTok.lit false '{', QTok.rep clsNotBrace 0] ++
           lits false ("\"" ++ k ++ "\"") ++ [QTok.rep clsNotBrace 0] ++
           lits false ".m3u8" ++ [QTok.rep clsNotBrace 0, QTok.lit false '}'],
    grp := [], post := [], hasGrp := false }

def json_patterns : List Pat := [jsonPat "url", jsonPat "video_url", jsonPat "src", jsonPat "source"]

/-- Substring occurrence over character lists. -/
def substrL (needle : List Char) : List Char → Bool
  | [] => needle.isEmpty
  | x :: xs => needle.isPrefixOf (x :: xs) || substrL needle xs

/-- Python substring membership test, as in ".m3u8" in match. -/
def substrB (needle hay : String) : Bool := substrL needle.data hay.data

/-! ## json.loads for the fragments of method 3

The json_patterns above only ever match a brace-free interior, so every
fragment handed to json.loads is one flat JSON object.  String values are
kept; numeric, boolean and null values are kept as an opaque non-string
marker (looking up such a value raises TypeError in the source, which the
bare except turns into skipping the fragment).  Anything else fails to
parse, as json.loads does. -/

inductive JVal
  | jstr (s : String)
  | jother
deriving DecidableEq

def isJsonWs (c : Char) : Bool := c == ' ' || c == Char.ofNat 9 || c == Char.ofNat 10 || c == Char.ofNat 13

def skipWs : List Char → List Char
  | [] => []
  | c :: cs => if isJsonWs c then skipWs cs else c :: cs

/-- Body of a JSON string literal; a backslash escape makes the parse fail
conservatively (no fragment considered in this development contains one). -/
def parseJStrGo : List Char → List Char → Option (String × List Char)
  | [], _ => none
  | c :: rest, acc =>
      if c == '"' then some (String.mk acc.reverse, rest)
      else if c == '\\' then none
      else parseJStrGo rest (c :: acc)

def parseJStr : List Char → Option (String × List Char)
  | '"' :: rest => parseJStrGo rest []
  | _ => none

def numChars : List Char := ['0','1','2','3','4','5','6','7','8','9','+','-','.','e','E']

def parseJVal (s : List Char) : Option (JVal × List Char) :=
  match parseJStr s with
  | some (str, rest) => some (JVal.jstr str, rest)
  | none =>
    if ("true".data).isPrefixOf s then some (JVal.jother, s.drop 4)
    else if ("false".data).isPrefixOf s then some (JVal.jother, s.drop 5)
    else if ("null".data).isPrefixOf s then some (JVal.jother, s.drop 4)
    else
      let n := runLen { neg := false, chars := numChars } s
      if n = 0 then none else some (JVal.jother, s.drop n)

def parsePairs : Nat → List Char → List (String × JVal) → Option (List (String × JVal))
  | 0, _, _ => none
  | fuel + 1, s, acc =>
    match parseJStr (skipWs s) with
    | none => none
    | some (k, rest) =>
      match skipWs rest with
      | ':' :: rest2 =>
        match parseJVal (skipWs rest2) with
        | none => none
        | some (v, rest3) =>
          match skipWs rest3 with
          | '}' :: rest4 => if (skipWs rest4).isEmpty then some ((k, v) :: acc) else none
          | ',' :: rest4 => parsePairs fuel rest4 ((k, v) :: acc)
          | _ => none
      | _ => none

def json_loads (s : String) : Option (List (String × JVal)) :=
  match skipWs s.data with
  | '{' :: rest =>
    match skipWs rest with
    | '}' :: rest2 => if (skipWs rest2).isEmpty then some [] else none
    | _ => (parsePairs (s.length + 1) rest []).map List.reverse
  | _ => none

/-- Python dict lookup; duplicate keys keep the last binding, as json.loads
does. -/
def dict_get (d : List (String × JVal)) (k : String) : Option JVal :=
  (d.reverse.find? (fun p => p.1 == k)).map (fun p => p.2)

/-! ## extract_video_url_from_html (bot.py lines 141-196) -/

/-- The script.string of each script tag (none when the tag has no single
string child) and the src of the first iframe carrying a src attribute,
in document order: the portion of the BeautifulSoup document the source
function reads. -/
structure Soup where
  iframe_src : Option String
  scripts : List (Option String)

/-- Python truthiness of script.string: None and the empty string are falsy. -/
def script_text (sc : Option String) : Option String :=
  match sc with
  | some c => if c.isEmpty then none else some c
  | none => none

/-- Method 1 (lines 148-150): the first iframe src, if it mentions the
player domain. -/
def method1 (soup : Soup) : Option String :=
  match soup.iframe_src with
  | some src => if substrB "player.hanime.tv" src then some src else none
  | none => none

/-- Method 2 (lines 153-171): first script, first pattern, first match that
contains .m3u8 — the source returns from inside the triple loop. -/
def method2 (scripts : List (Option String)) : Option String :=
  scripts.findSome? (fun sc =>
    match script_text sc with
    | none => none
    | some content =>
      m2_patterns.findSome? (fun p =>
        (findall p content).find? (fun m => substrB ".m3u8" m)))

def m3_keys : List String := ["url", "video_url", "src", "source"]

/-- The key probing loop of method 3 (lines 190-192); a non-string value at a
probed key raises TypeError in the source, which the bare except (line 193)
turns into abandoning the current match. -/
def check_keys : List String → List (String × JVal) → Except Unit (Option String)
  | [], _ => Except.ok none
  | k :: ks, data =>
    match dict_get data k with
    | some (JVal.jstr v) =>
        if substrB ".m3u8" v then Except.ok (some v) else check_keys ks data
    | some JVal.jother => Except.error ()
    | none => check_keys ks data

/-- One match of a json pattern: parse it, probe the keys; every failure is
swallowed and the scan continues with the next match. -/
def try_json_match (m : String) : Option String :=
  match json_loads m with
  | none => none
  | some data =>
    match check_keys m3_keys data with
    | Except.ok r => r
    | Except.error _ => none

/-- Method 3 (lines 174-194). -/
def method3 (scripts : List (Option String)) : Option String :=
  scripts.findSome? (fun sc =>
    match script_text sc with
    | none => none
    | some content =>
      json_patterns.findSome? (fun p =>
        (findall p content).findSome? try_json_match))

/-- The whole function: methods in order, page_url as the final fallback
(line 196). -/
def extract_video_url_from_html (soup : Soup) (page_url : String) : String :=
  match method1 soup with
  | some u => u
  | none =>
    match method2 soup.scripts with
    | some u => u
    | none =>
      match method3 soup.scripts with
      | some u => u
      | none => page_url

/-! ## extract_video_url_with_playwright (bot.py lines 51-116) -/

/-- What the headless browser observes on the page: the title, the outbound
request URLs seen during the settling window in order of observation, the
live video element src and the og:image content. -/
structure PWPage where
  title : String
  network_requests : List String
  video_src : Option String
  og_image : Option String

structure VideoData where
  video_url : Option String
  title : String
  thumbnail : Option String
deriving DecidableEq

/-- The extraction logic: collect the .m3u8 requests, keep the last one
(line 89, m3u8_urls[-1]); otherwise fall back to the video element src when
it contains .m3u8 (lines 92-102). -/
def extract_video_url_with_playwright (pg : PWPage) : VideoData :=
  let m3u8_urls := pg.network_requests.filter (fun u => substrB ".m3u8" u)
  let vu : Option String :=
    match m3u8_urls.getLast? with
    | some u => some u
    | none =>
      match pg.video_src with
      | some v => if substrB ".m3u8" v then some v else none
      | none => none
  { video_url := vu, title := pg.title, thumbnail := pg.og_image }

/-! ## Retry decorator (tenacity, bot.py lines 50, 118, 131)

retry(stop=stop_after_attempt(3), wait=wait_exponential(...)) retries on
every exception; the decorator never inspects the kind of the failure.
The model returns the final result together with the number of times the
wrapped operation was invoked. -/

inductive FailKind
  | transientNetwork
  | timeout
  | rateLimit
  | terminalRequest
deriving DecidableEq

def tenacity_attempts {α : Type} (op : Nat → Except FailKind α) : Nat → Nat → Except FailKind α × Nat
  | k, 0 => (op k, 1)
  | k, fuel + 1 =>
    match op k with
    | Except.ok a => (Except.ok a, 1)
    | Except.error _ =>
      let r := tenacity_attempts op (k + 1) fuel
      (r.1, r.2 + 1)

/-- Call the operation under stop_after_attempt maxAttempts: attempts are
numbered from 1; after a failed final attempt the last failure surfaces. -/
def tenacity_call {α : Type} (op : Nat → Except FailKind α) (maxAttempts : Nat) : Except FailKind α × Nat :=
  tenacity_attempts op 1 (maxAttempts - 1)

/-! ## yt_dlp_download_blocking (bot.py lines 198-266) -/

structure DlPath where
  stem : String
  ext : String
deriving DecidableEq, BEq

def with_suffix (p : DlPath) (e : String) : DlPath := { p with ext := e }

/-- The output directory after the download phase: files with their sizes,
in iteration order of outdir.iterdir(). -/
def path_exists (fs : List (DlPath × Nat)) (p : DlPath) : Bool :=
  fs.any (fun f => f.1 == p)

def fallback_exts : List String := [".mp4", ".mkv", ".webm", ".m4a"]

/-- Lines 245-251: probe the fixed extension list for the same base name and
keep the first variant that exists; otherwise keep the original path. -/
def probe_exts (fs : List (DlPath × Nat)) (p : DlPath) : DlPath :=
  match fallback_exts.find? (fun e => path_exists fs (with_suffix p e)) with
  | some e => with_suffix p e
  | none => p

inductive DlOutcome
  | found (p : DlPath)
  | no_file
  | raised (e : String)
deriving DecidableEq

/-- The control flow of the function: on a clean first download, return the
expected path or an extension variant (even if neither exists); if the
extraction or download raised, retry the download once and return the first
file of positive size in iteration order, re-raising the original error if
the retry raised too, and silently returning no path if the directory scan
finds nothing (the implicit None of line 266 falling through). -/
def yt_dlp_download_blocking (extract_raises retry_raises : Bool) (err : String)
    (fs : List (DlPath × Nat)) (expected : DlPath) : DlOutcome :=
  if !extract_raises then
    if path_exists fs expected then DlOutcome.found expected
    else DlOutcome.found (probe_exts fs expected)
  else if retry_raises then DlOutcome.raised err
  else
    match fs.find? (fun f => decide (0 < f.2)) with
    | some f => DlOutcome.found f.1
    | none => DlOutcome.no_file

/-! ## progress_hook (bot.py lines 220-231) -/

structure ProgressState where
  percent : Nat
  downloaded_mb : Nat
  total_mb : Nat
  speed : Nat
deriving DecidableEq

inductive DStatus
  | downloading
  | finished
  | other
deriving DecidableEq

structure DEvent where
  status : DStatus
  total_bytes : Option Nat
  total_bytes_estimate : Option Nat
  downloaded_bytes : Nat
  speed : Option Nat
deriving DecidableEq

def opt_truthy (a : Option Nat) : Option Nat :=
  match a with
  | some n => if n = 0 then none else some n
  | none => none

/-- Python d.get("total_bytes") or d.get("total_bytes_estimate") or 0. -/
def py_or_nat (a b : Option Nat) : Nat :=
  ((opt_truthy a).orElse (fun _ => opt_truthy b)).getD 0

/-- The hook body.  The source stores megabyte counts as floats; the claims
only concern the percent field, and the mb fields are modelled in whole
megabytes.  Division on Nat is the floor division of the spec. -/
def progress_hook (st : ProgressState) (d : DEvent) : ProgressState :=
  if d.status = DStatus.downloading then
    let total := py_or_nat d.total_bytes d.total_bytes_estimate
    if 0 < total then
      { percent := min 100 (d.downloaded_bytes * 100 / total),
        downloaded_mb := d.downloaded_bytes / (1024 * 1024),
        total_mb := total / (1024 * 1024),
        speed := d.speed.getD 0 }
    else st
  else if d.status = DStatus.finished then
    { st with percent := 100, downloaded_mb := st.total_mb }
  else st

/-- One downloading event with reported total t and byte count b. -/
def dl_event (t b : Nat) : DEvent :=
  { status := DStatus.downloading, total_bytes := some t,
    total_bytes_estimate := none, downloaded_bytes := b, speed := none }

/-- A run of downloading events with a fixed reported total. -/
def down_events (t : Nat) (bs : List Nat) : List DEvent :=
  bs.map (dl_event t)

/-! ## send_large_file and the cleanup of random_hanime (bot.py 268-292, 413-426) -/

def MAX_SEND_BYTES : Nat := 2 * 1024 * 1024 * 1024

structure SendFileResult where
  returned : Bool
  send_attempted : Bool
deriving DecidableEq

/-- Lines 268-292: reject (return False, no transmission) when the size
strictly exceeds the ceiling, otherwise transmit and report the outcome. -/
def send_large_file (file_size max_size : Nat) (send_ok : Bool) : SendFileResult :=
  if file_size > max_size then { returned := false, send_attempted := false }
  else { returned := send_ok, send_attempted := true }

structure FinishResult where
  sent : Bool
  send_attempted : Bool
  file_still_exists : Bool
  unlink_attempted : Bool
  escalated : Bool
deriving DecidableEq

/-- Steps 5 and cleanup of random_hanime (lines 413-426): send through the
gate, then unconditionally try to unlink the file; an unlink failure is
logged and swallowed, never escalated to the caller. -/
def finish_request (file_size : Nat) (send_ok unlink_ok : Bool) : FinishResult :=
  let r := send_large_file file_size MAX_SEND_BYTES send_ok
  { sent := r.returned, send_attempted := r.send_attempted,
    file_still_exists := !unlink_ok, unlink_attempted := true,
    escalated := false }

/-! ## Module import and the strategy chain of random_hanime (bot.py 21, 333-365) -/

/-- The module-level import block; line 21 imports hanime_tv_plugin
unconditionally, before main and its guarded import ever run. -/
def bot_module_imports (plugin_installed : Bool) : Except String Unit :=
  if plugin_installed then Except.ok ()
  else Except.error "ModuleNotFoundError: hanime_tv_plugin"

/-- Process start: the module imports run first; main adds nothing fallible
for this model (its own import of the plugin is wrapped in try/except). -/
def bot_startup (plugin_installed : Bool) : Except String Unit :=
  match bot_module_imports plugin_installed with
  | Except.error e => Except.error e
  | Except.ok _ => Except.ok ()

/-- Python truthiness of a candidate URL value. -/
def py_truthy (r : Option String) : Option String :=
  match r with
  | some u => if u.isEmpty then none else some u
  | none => none

/-- The environment a resolution runs in: what each strategy would produce
(or the exception it would raise after its retries), and the parsed page. -/
structure ResolveEnv where
  plugin : Except Unit (Option String)
  playwright : Except Unit PWPage
  html_raises : Bool
  soup : Soup

/-- Steps 2 of random_hanime (lines 333-365): plugin, then playwright, then
HTML mining, each in its own try/except, each consulted only while no
candidate is held; finally the page URL itself. -/
def resolve_video_url (env : ResolveEnv) (page_url : String) : String :=
  let v1 : Option String :=
    match env.plugin with
    | Except.ok r => py_truthy r
    | Except.error _ => none
  let v2 : Option String :=
    match v1 with
    | some u => some u
    | none =>
      match env.playwright with
      | Except.ok pg => py_truthy (extract_video_url_with_playwright pg).video_url
      | Except.error _ => none
  let v3 : Option String :=
    match v2 with
    | some u => some u
    | none =>
      if env.html_raises then none
      else py_truthy (some (extract_video_url_from_html env.soup page_url))
  match v3 with
  | some u => u
  | none => page_url

/-! ## Command handlers (bot.py 294-316) -/

inductive BotAction
  | reply (msg : String)
  | edit_status (msg : String)
  | fetch_random_page
  | try_plugin
  | try_playwright
  | try_html
  | run_download (url : String)
  | send_document (name : String)
  | unlink_file
deriving DecidableEq

def private_notice : String := "This bot is private."

/-- The guard of start (lines 294-297): a foreign chat gets the fixed notice
and nothing else; body stands for the system-info reply of the own chat. -/
def start_handler (chat_id chat_cfg : Int) (body : List BotAction) : List BotAction :=
  if chat_id ≠ chat_cfg then [BotAction.reply private_notice] else body

/-- The guard of random_hanime (lines 313-316), same shape: the whole
fetch/extract/download/send pipeline (body) runs only for the own chat. -/
def random_hanime_handler (chat_id chat_cfg : Int) (body : List BotAction) : List BotAction :=
  if chat_id ≠ chat_cfg then [BotAction.reply private_notice] else body

/-! ## Predicates used by the claims -/

/-- No pattern of the source matches anywhere in this script text. -/
def script_no_match (c : String) : Bool :=
  (m2_patterns.all (fun p => decide (findall p c = []))) &&
  (json_patterns.all (fun p => decide (findall p c = [])))

/-- The markup contains zero matching URLs or fragments: the iframe (if any)
does not point at the player domain and no script matches any pattern. -/
def soup_no_match (soup : Soup) : Bool :=
  (match soup.iframe_src with
   | some src => !(substrB "player.hanime.tv" src)
   | none => true) &&
  soup.scripts.all (fun sc =>
    match script_text sc with
    | some c => script_no_match c
    | none => true)

/-- The plugin strategy produced no candidate (raised, or no truthy url). -/
def strategy_yields_none (r : Except Unit (Option String)) : Bool :=
  match r with
  | Except.ok v => (py_truthy v).isNone
  | Except.error _ => true

/-- The browser strategy produced no candidate (raised, or no truthy url). -/
def pw_yields_none (r : Except Unit PWPage) : Bool :=
  match r with
  | Except.ok pg => (py_truthy (extract_video_url_with_playwright pg).video_url).isNone
  | Except.error _ => true

/-- A browser observation with nothing in it. -/
def empty_pw_page : PWPage :=
  { title := "", network_requests := [], video_src := none, og_image := none }

/-! ## Helper lemmas -/

/-- When no pattern matches anywhere in the markup, every method comes back
empty and the function returns the page URL itself. -/
theorem extract_no_match (soup : Soup) (page : String)
    (h : soup_no_match soup = true) :
    extract_video_url_from_html soup page = page := by
  unfold soup_no_match at h
  rw [Bool.and_eq_true] at h
  obtain ⟨h1, h2⟩ := h
  rw [List.all_eq_true] at h2
  have hscript : ∀ sc ∈ soup.scripts, ∀ c, script_text sc = some c →
      (∀ p ∈ m2_patterns, findall p c = []) ∧ (∀ p ∈ json_patterns, findall p c = []) := by
    intro sc hsc c hc
    have hx := h2 sc hsc
    rw [hc] at hx
    unfold script_no_match at hx
    rw [Bool.and_eq_true, List.all_eq_true, List.all_eq_true] at hx
    exact ⟨fun p hp => of_decide_eq_true (hx.1 p hp),
           fun p hp => of_decide_eq_true (hx.2 p hp)⟩
  have hm1 : method1 soup = none := by
    unfold method1
    cases hif : soup.iframe_src with
    | none => rfl
    | some src =>
        rw [hif] at h1
        simp only [Bool.not_eq_true'] at h1
        simp [h1]
  have hm2 : method2 soup.scripts = none := by
    unfold method2
    rw [List.findSome?_eq_none_iff]
    intro sc hsc
    cases hst : script_text sc with
    | none => simp
    | some c =>
        simp only
        rw [List.findSome?_eq_none_iff]
        intro p hp
        rw [(hscript sc hsc c hst).1 p hp]
        rfl
  have hm3 : method3 soup.scripts = none := by
    unfold method3
    rw [List.findSome?_eq_none_iff]
    intro sc hsc
    cases hst : script_text sc with
    | none => simp
    | some c =>
        simp only
        rw [List.findSome?_eq_none_iff]
        intro p hp
        rw [(hscript sc hsc c hst).2 p hp]
        rfl
  unfold extract_video_url_from_html
  rw [hm1, hm2, hm3]

/-- The percent value written by one downloading event. -/
theorem progress_hook_dl (st : ProgressState) (t b : Nat) :
    (progress_hook st (dl_event t b)).percent
      = if t = 0 then st.percent else min 100 (b * 100 / t) := by
  by_cases ht : t = 0 <;>
    simp [progress_hook, dl_event, py_or_nat, opt_truthy, ht, Nat.pos_of_ne_zero]

/-- A downloading event with zero total leaves the whole state untouched. -/
theorem progress_hook_dl_zero (st : ProgressState) (b : Nat) :
    progress_hook st (dl_event 0 b) = st := by
  simp [progress_hook, dl_event, py_or_nat, opt_truthy]

/-- The percent trace of a run of downloading events with a fixed total. -/
theorem map_percent_scanl (t : Nat) (bs : List Nat) :
    ∀ (st : ProgressState),
      (List.scanl progress_hook st (down_events t bs)).map (fun s => s.percent)
        = st.percent :: bs.map (fun b => if t = 0 then st.percent else min 100 (b * 100 / t)) := by
  induction bs with
  | nil => intro st; simp [down_events]
  | cons b bs ih =>
      intro st
      have hstep := ih (progress_hook st (dl_event t b))
      by_cases ht : t = 0
      · subst ht
        rw [down_events, List.map_cons, List.scanl_cons]
        simp only [List.singleton_append, List.map_cons]
        rw [show bs.map (dl_event 0) = down_events 0 bs from rfl, hstep,
          progress_hook_dl_zero]
        simp
      · rw [down_events, List.map_cons, List.scanl_cons]
        simp only [List.singleton_append, List.map_cons]
        rw [show bs.map (dl_event t) = down_events t bs from rfl, hstep]
        simp [ht, progress_hook_dl]

/-- A constant list is a non-decreasing chain. -/
theorem chain_const (a : Nat) : ∀ (l : List Nat), List.Chain' (· ≤ ·) (a :: l.map (fun _ => a))
  | [] => List.chain'_singleton a
  | b :: l => by
      rw [List.map_cons, List.chain'_cons]
      exact ⟨le_refl a, chain_const a l⟩

/-! ## Claims -/

def c1_soupA : Soup :=
  { iframe_src := none, scripts := [some "a https://x/1.m3u8 https://x/2.m3u8"] }

def c1_soupB : Soup :=
  { iframe_src := some "https://player.hanime.tv/e/1",
    scripts := [some "var u = \"https://cdn/vb.m3u8\";"] }

/-- C1 counterexample.  The claim says that among same-kind candidates the
last one observed is selected and that a streaming-manifest candidate always
beats other kinds.  In extract_video_url_from_html both parts fail: with two
manifest URLs in one script the first match is returned, and an iframe embed
(no manifest suffix) is returned even when a script holds a manifest URL. -/
theorem C1_counterexample :
    (extract_video_url_from_html c1_soupA "PAGE" = "https://x/1.m3u8" ∧
     findall pat1 "a https://x/1.m3u8 https://x/2.m3u8"
       = ["https://x/1.m3u8", "https://x/2.m3u8"] ∧
     ("https://x/1.m3u8" : String) ≠ "https://x/2.m3u8") ∧
    (extract_video_url_from_html c1_soupB "PAGE" = "https://player.hanime.tv/e/1" ∧
     method2 c1_soupB.scripts = some "https://cdn/vb.m3u8" ∧
     substrB ".m3u8" "https://player.hanime.tv/e/1" = false) := by
  decide

/-- C1 amended.  Only the browser strategy keeps the last observation: its
selected URL is the last observed .m3u8 request.  The HTML mining strategy
returns the first match in its fixed method and pattern order: the iframe
embed if present, otherwise the first manifest URL the first pattern finds
in the first script that has one. -/
theorem C1_amended :
    (∀ (pg : PWPage),
        pg.network_requests.filter (fun u => substrB ".m3u8" u) ≠ [] →
        (extract_video_url_with_playwright pg).video_url
          = (pg.network_requests.filter (fun u => substrB ".m3u8" u)).getLast?) ∧
    (∀ (c page m : String) (ms : List String),
        c.isEmpty = false →
        findall pat1 c = m :: ms →
        substrB ".m3u8" m = true →
        extract_video_url_from_html { iframe_src := none, scripts := [some c] } page = m) := by
  constructor
  · intro pg h
    unfold extract_video_url_with_playwright
    have hs : (pg.network_requests.filter (fun u => substrB ".m3u8" u)).getLast?.isSome = true :=
      List.getLast?_isSome.mpr h
    obtain ⟨u, hu⟩ := Option.isSome_iff_exists.mp hs
    simp [hu]
  · intro c page m ms hne hfind hsub
    unfold extract_video_url_from_html method1 method2
    simp only [List.findSome?_cons, script_text, hne, Bool.false_eq_true, if_false,
      m2_patterns, hfind, List.find?_cons, hsub]

def c1w_page : PWPage :=
  { title := "t",
    network_requests := ["https://a/1.m3u8", "https://img/x.png", "https://a/2.m3u8"],
    video_src := none, og_image := none }

/-- C1 witness: the amended statement at concrete inputs. -/
theorem C1_witness :
    (c1w_page.network_requests.filter (fun u => substrB ".m3u8" u) ≠ [] ∧
     (extract_video_url_with_playwright c1w_page).video_url
       = (c1w_page.network_requests.filter (fun u => substrB ".m3u8" u)).getLast?) ∧
    (("x https://w.m3u8" : String).isEmpty = false ∧
     findall pat1 "x https://w.m3u8" = ["https://w.m3u8"] ∧
     substrB ".m3u8" "https://w.m3u8" = true ∧
     extract_video_url_from_html
       { iframe_src := none, scripts := [some "x https://w.m3u8"] } "P" = "https://w.m3u8") :=
  ⟨⟨by decide, C1_amended.1 c1w_page (by decide)⟩,
   ⟨by decide, by decide, by decide,
    C1_amended.2 "x https://w.m3u8" "P" "https://w.m3u8" [] (by decide) (by decide) (by decide)⟩⟩

/-- C2.  The strategy chain inside the handler is failure-isolated (a plugin
or browser strategy that raises is indistinguishable from one returning
nothing), but the claim that an uninstalled plugin never crashes the
pipeline is contradicted by the unconditional module-level import at bot.py
line 21: with the plugin absent the process fails at startup, before the
guarded import inside main (lines 437-441) can ever run. -/
theorem C2_theorem :
    bot_startup false = Except.error "ModuleNotFoundError: hanime_tv_plugin" ∧
    (∀ (env : ResolveEnv) (page : String), env.plugin = Except.error () →
        resolve_video_url env page
          = resolve_video_url { env with plugin := Except.ok none } page) ∧
    (∀ (env : ResolveEnv) (page : String), env.playwright = Except.error () →
        resolve_video_url env page
          = resolve_video_url { env with playwright := Except.ok empty_pw_page } page) := by
  refine ⟨rfl, ?_, ?_⟩
  · intro env page h
    unfold resolve_video_url
    rw [h]
    rfl
  · intro env page h
    unfold resolve_video_url
    rw [h]
    rfl

def c2w_env : ResolveEnv :=
  { plugin := Except.error (), playwright := Except.error (),
    html_raises := false, soup := { iframe_src := none, scripts := [] } }

/-- C2 witness: both chain-isolation equations at a concrete environment. -/
theorem C2_witness :
    c2w_env.plugin = Except.error () ∧
    resolve_video_url c2w_env "P"
      = resolve_video_url { c2w_env with plugin := Except.ok none } "P" ∧
    c2w_env.playwright = Except.error () ∧
    resolve_video_url c2w_env "P"
      = resolve_video_url { c2w_env with playwright := Except.ok empty_pw_page } "P" :=
  ⟨rfl, C2_theorem.2.1 c2w_env "P" rfl, rfl, C2_theorem.2.2 c2w_env "P" rfl⟩

/-- C3 counterexample.  The claim says an always-terminal operation is
invoked exactly once; the tenacity decorator of the source never inspects
the failure kind, so it is invoked three times. -/
theorem C3_counterexample :
    (tenacity_call (fun _ => (Except.error FailKind.terminalRequest : Except FailKind Nat)) 3).2 = 3 ∧
    (3 : Nat) ≠ 1 := by
  decide

/-- C3 amended.  With maxAttempts 3, an operation failing twice then
succeeding is invoked exactly three times and its success is returned; an
operation that always fails — with any kind, terminal included — is also
invoked exactly three times, after which the last failure surfaces. -/
theorem C3_amended :
    (∀ (op : Nat → Except FailKind Nat) (a : Nat),
        (∃ e1, op 1 = Except.error e1) → (∃ e2, op 2 = Except.error e2) →
        op 3 = Except.ok a →
        tenacity_call op 3 = (Except.ok a, 3)) ∧
    (∀ (e : FailKind),
        tenacity_call (fun _ => (Except.error e : Except FailKind Nat)) 3
          = (Except.error e, 3)) := by
  constructor
  · intro op a h1 h2 h3
    obtain ⟨e1, he1⟩ := h1
    obtain ⟨e2, he2⟩ := h2
    show tenacity_attempts op 1 2 = (Except.ok a, 3)
    unfold tenacity_attempts
    rw [he1]
    unfold tenacity_attempts
    rw [he2]
    unfold tenacity_attempts
    rw [h3]
  · intro e
    show tenacity_attempts _ 1 2 = (Except.error e, 3)
    unfold tenacity_attempts
    rfl

def c3w_op : Nat → Except FailKind Nat :=
  fun k => if k < 3 then Except.error FailKind.transientNetwork else Except.ok 7

/-- C3 witness: the fails-twice-then-succeeds case at a concrete operation. -/
theorem C3_witness :
    (∃ e1, c3w_op 1 = Except.error e1) ∧ (∃ e2, c3w_op 2 = Except.error e2) ∧
    c3w_op 3 = Except.ok 7 ∧ tenacity_call c3w_op 3 = (Except.ok 7, 3) :=
  ⟨⟨FailKind.transientNetwork, rfl⟩, ⟨FailKind.transientNetwork, rfl⟩,
   rfl,
   C3_amended.1 c3w_op 7 ⟨FailKind.transientNetwork, rfl⟩
     ⟨FailKind.transientNetwork, rfl⟩ rfl⟩

def c4_fs : List (DlPath × Nat) := [({ stem := "recent", ext := ".mp4" }, 5)]

def c4_expected : DlPath := { stem := "video", ext := ".mp4" }

/-- C4 counterexample.  With the first download clean, the expected path
absent, no extension variant present, and a file sitting in the output
directory, the routine returns the nonexistent expected path: it neither
falls back to the most recently modified file nor declares a NotFound
failure. -/
theorem C4_counterexample :
    yt_dlp_download_blocking false false "boom" c4_fs c4_expected
      = DlOutcome.found c4_expected ∧
    path_exists c4_fs c4_expected = false ∧
    path_exists c4_fs { stem := "recent", ext := ".mp4" } = true ∧
    c4_expected ≠ { stem := "recent", ext := ".mp4" } := by
  decide

/-- C4 amended.  When the first download succeeds and the expected path is
absent, the routine probes .mp4, .mkv, .webm, .m4a in order and returns the
first existing variant, or the original nonexistent path when none exists —
with no error of any kind.  The directory scan exists only in the exception
branch: after the extraction raises, the download is retried, and the first
file of positive size in iteration order is returned (not the most recently
modified); if the retry raises too, the original error propagates. -/
theorem C4_amended (fs : List (DlPath × Nat)) (expected : DlPath) (err : String) :
    (path_exists fs expected = false →
      yt_dlp_download_blocking false false err fs expected
        = DlOutcome.found (probe_exts fs expected)) ∧
    ((fallback_exts.all (fun e => !(path_exists fs (with_suffix expected e)))) = true →
      probe_exts fs expected = expected) ∧
    (yt_dlp_download_blocking true true err fs expected = DlOutcome.raised err) ∧
    (∀ (p1 : DlPath) (n1 : Nat) (rest : List (DlPath × Nat)), 0 < n1 →
      yt_dlp_download_blocking true false err ((p1, n1) :: rest) expected
        = DlOutcome.found p1) := by
  refine ⟨?_, ?_, ?_, ?_⟩
  · intro h
    unfold yt_dlp_download_blocking
    simp [h]
  · intro h
    rw [List.all_eq_true] at h
    unfold probe_exts
    have : fallback_exts.find? (fun e => path_exists fs (with_suffix expected e)) = none := by
      rw [List.find?_eq_none]
      intro e he
      have := h e he
      simp only [Bool.not_eq_true'] at this
      simp [this]
    rw [this]
  · rfl
  · intro p1 n1 rest h
    unfold yt_dlp_download_blocking
    simp [List.find?_cons, h]

/-- C4 witness: the amended statement at concrete inputs. -/
theorem C4_witness :
    path_exists [] c4_expected = false ∧
    yt_dlp_download_blocking false false "e" [] c4_expected
      = DlOutcome.found (probe_exts [] c4_expected) ∧
    (0 : Nat) < 1 ∧
    yt_dlp_download_blocking true false "e" [(c4_expected, 1)] c4_expected
      = DlOutcome.found c4_expected :=
  ⟨by decide, (C4_amended [] c4_expected "e").1 (by decide), by decide,
   (C4_amended [(c4_expected, 1)] c4_expected "e").2.2.2 c4_expected 1 [] (by decide)⟩

/-- C5.  The gate transmits exactly when the size does not strictly exceed
the 2 GiB ceiling (the ceiling itself is accepted, ceiling plus one is
rejected); the cleanup step always attempts the unlink regardless of the
gate or transmission outcome, so an accepted or rejected artifact is gone
afterwards whenever the unlink succeeds, and a cleanup failure is never
escalated. -/
theorem C5_theorem (file_size : Nat) (send_ok unlink_ok : Bool) :
    ((finish_request file_size send_ok unlink_ok).send_attempted
        = decide (file_size ≤ MAX_SEND_BYTES)) ∧
    ((finish_request file_size send_ok unlink_ok).sent
        = (decide (file_size ≤ MAX_SEND_BYTES) && send_ok)) ∧
    ((finish_request MAX_SEND_BYTES send_ok unlink_ok).send_attempted = true) ∧
    ((finish_request (MAX_SEND_BYTES + 1) send_ok unlink_ok).send_attempted = false) ∧
    ((finish_request (MAX_SEND_BYTES + 1) send_ok true).file_still_exists = false) ∧
    ((finish_request file_size send_ok unlink_ok).unlink_attempted = true) ∧
    ((finish_request file_size send_ok unlink_ok).escalated = false) ∧
    ((finish_request file_size send_ok unlink_ok).file_still_exists = !unlink_ok) := by
  unfold finish_request send_large_file
  have hmax : ¬ (MAX_SEND_BYTES > MAX_SEND_BYTES) := Nat.lt_irrefl _
  have hsucc : MAX_SEND_BYTES + 1 > MAX_SEND_BYTES := Nat.lt_succ_self _
  by_cases h : file_size > MAX_SEND_BYTES
  · have hd : decide (file_size ≤ MAX_SEND_BYTES) = false := by
      simp [Nat.not_le_of_lt h]
    simp [h, hd, hmax, hsucc]
  · have hd : decide (file_size ≤ MAX_SEND_BYTES) = true := by
      simp [Nat.le_of_not_lt h]
    simp [h, hd, hmax, hsucc]

def c6_init : ProgressState := { percent := 0, downloaded_mb := 0, total_mb := 0, speed := 0 }

def c6_event : DEvent :=
  { status := DStatus.downloading, total_bytes := some 200,
    total_bytes_estimate := none, downloaded_bytes := 300, speed := none }

/-- C6 counterexample.  With a known total of 200 bytes and 300 downloaded
bytes reported, floor(300 * 100 / 200) is 150, but the hook stores the
clamped value 100: the percent field is not set to the plain floor. -/
theorem C6_counterexample :
    py_or_nat c6_event.total_bytes c6_event.total_bytes_estimate = 200 ∧
    (progress_hook c6_init c6_event).percent = 100 ∧
    c6_event.downloaded_bytes * 100 / 200 = 150 ∧ ¬((100 : Nat) = 150) := by
  decide

/-- C6 amended.  On a downloading event with known positive total, percent
is set to min(100, floor(bytesDone * 100 / bytesTotal)); with the total
unknown it is held at its last value; a finished event sets it to 100; and
starting from a value in range it always stays within 0..100. -/
theorem C6_amended (st : ProgressState) (d : DEvent) (hst : st.percent ≤ 100) :
    ((progress_hook st d).percent ≤ 100) ∧
    (d.status = DStatus.downloading →
      (0 < py_or_nat d.total_bytes d.total_bytes_estimate →
        (progress_hook st d).percent
          = min 100 (d.downloaded_bytes * 100 / py_or_nat d.total_bytes d.total_bytes_estimate)) ∧
      (py_or_nat d.total_bytes d.total_bytes_estimate = 0 →
        (progress_hook st d).percent = st.percent)) ∧
    (d.status = DStatus.finished → (progress_hook st d).percent = 100) := by
  unfold progress_hook
  cases hs : d.status <;>
    simp [hs]
  · by_cases ht : 0 < py_or_nat d.total_bytes d.total_bytes_estimate <;>
      simp [ht, hst, Nat.min_le_left]
    omega
  · exact hst

/-- C6 witness: the amended statement at the counterexample input. -/
theorem C6_witness :
    c6_init.percent ≤ 100 ∧
    ((progress_hook c6_init c6_event).percent ≤ 100) ∧
    (c6_event.status = DStatus.downloading →
      (0 < py_or_nat c6_event.total_bytes c6_event.total_bytes_estimate →
        (progress_hook c6_init c6_event).percent
          = min 100 (c6_event.downloaded_bytes * 100
              / py_or_nat c6_event.total_bytes c6_event.total_bytes_estimate)) ∧
      (py_or_nat c6_event.total_bytes c6_event.total_bytes_estimate = 0 →
        (progress_hook c6_init c6_event).percent = c6_init.percent)) ∧
    (c6_event.status = DStatus.finished → (progress_hook c6_init c6_event).percent = 100) :=
  ⟨by decide, C6_amended c6_init c6_event (by decide)⟩

/-- C7.  Folding the hook over any non-decreasing run of byte counts with a
fixed reported total produces a non-decreasing percent trace: percent never
regresses across updates. -/
theorem C7_theorem (t : Nat) (st : ProgressState) (bs : List Nat)
    (h0 : st.percent = 0) (hc : List.Chain' (· ≤ ·) bs) :
    List.Chain' (· ≤ ·)
      ((List.scanl progress_hook st (down_events t bs)).map (fun s => s.percent)) := by
  rw [map_percent_scanl, h0]
  by_cases ht : t = 0
  · subst ht
    simp only [if_pos rfl]
    exact chain_const 0 bs
  · simp only [ht, if_false]
    rw [List.chain'_cons']
    refine ⟨fun y _ => Nat.zero_le y, ?_⟩
    rw [List.chain'_map]
    exact hc.imp (fun a b hab =>
      min_le_min (le_refl 100) (Nat.div_le_div_right (mul_le_mul_right' hab 100)))

def c7_bs : List Nat := [10, 50, 200]

/-- C7 witness: the monotone trace on a concrete run. -/
theorem C7_witness :
    c6_init.percent = 0 ∧ List.Chain' (· ≤ ·) c7_bs ∧
    List.Chain' (· ≤ ·)
      ((List.scanl progress_hook c6_init (down_events 200 c7_bs)).map (fun s => s.percent)) :=
  ⟨rfl, by simp [c7_bs, List.chain'_cons],
   C7_theorem 200 c6_init c7_bs rfl (by simp [c7_bs, List.chain'_cons])⟩

/-- C8.  When the plugin and browser strategies yield no candidate (raise or
return nothing truthy) and the HTML strategy raises or finds no match, the
resolution section of random_hanime returns the original page URL: the
resolved URL is never absent. -/
theorem C8_theorem (env : ResolveEnv) (page : String)
    (hp : strategy_yields_none env.plugin = true)
    (hw : pw_yields_none env.playwright = true)
    (hh : env.html_raises = true ∨ soup_no_match env.soup = true) :
    resolve_video_url env page = page := by
  unfold resolve_video_url
  have hv1 : (match env.plugin with
      | Except.ok r => py_truthy r
      | Except.error _ => none) = none := by
    cases hpe : env.plugin with
    | ok r =>
        rw [hpe] at hp
        unfold strategy_yields_none at hp
        rw [Option.isNone_iff_eq_none] at hp
        exact hp
    | error e => rfl
  have hv2 : (match env.playwright with
      | Except.ok pg => py_truthy (extract_video_url_with_playwright pg).video_url
      | Except.error _ => none) = none := by
    cases hpw : env.playwright with
    | ok pg =>
        rw [hpw] at hw
        unfold pw_yields_none at hw
        rw [Option.isNone_iff_eq_none] at hw
        exact hw
    | error e => rfl
  simp only [hv1, hv2]
  rcases hh with hh | hh
  · simp [hh]
  · cases hhr : env.html_raises with
    | true => simp
    | false =>
        simp only [hhr, Bool.false_eq_true, if_false]
        rw [extract_no_match env.soup page hh]
        unfold py_truthy
        by_cases hpg : page.isEmpty <;> simp [hpg]

def c8w_env : ResolveEnv :=
  { plugin := Except.error (), playwright := Except.ok empty_pw_page,
    html_raises := false, soup := { iframe_src := some "https://other.example/x",
                                    scripts := [some "nothing here", none] } }

/-- C8 witness: full fallback at a concrete environment. -/
theorem C8_witness :
    strategy_yields_none c8w_env.plugin = true ∧
    pw_yields_none c8w_env.playwright = true ∧
    soup_no_match c8w_env.soup = true ∧
    resolve_video_url c8w_env "PAGE" = "PAGE" :=
  ⟨by decide, by decide, by decide,
   C8_theorem c8w_env "PAGE" (by decide) (by decide) (Or.inr (by decide))⟩

def c9_soup : Soup :=
  { iframe_src := none,
    scripts := [some "\x7b\"url\": a.m3u8\x7d \x7b\"url\": \"a2.m3u8\"\x7d"] }

/-- C9.  On markup with zero matching URLs or fragments the pattern miner
produces no candidate and simply returns the page URL (the total Lean
function witnesses that no exception escapes); and a fragment that fails to
parse is skipped silently: in the concrete script the first fragment is
malformed JSON, yet scanning continues and the second fragment yields the
candidate. -/
theorem C9_theorem :
    (∀ (soup : Soup) (page : String), soup_no_match soup = true →
        extract_video_url_from_html soup page = page) ∧
    extract_video_url_from_html c9_soup "PAGE" = "a2.m3u8" ∧
    json_loads "\x7b\"url\": a.m3u8\x7d" = none := by
  refine ⟨fun soup page h => extract_no_match soup page h, ?_, ?_⟩
  · decide
  · decide

def c9w_soup : Soup :=
  { iframe_src := some "https://other.example/x", scripts := [some "nothing here", none] }

/-- C9 witness: the universal part at a concrete no-match markup. -/
theorem C9_witness :
    soup_no_match c9w_soup = true ∧
    extract_video_url_from_html c9w_soup "PAGE" = "PAGE" :=
  ⟨by decide, C9_theorem.1 c9w_soup "PAGE" (by decide)⟩

/-- C10.  For a chat different from the configured one, both handlers reply
with the fixed private-bot notice and nothing else: no page fetch, no
strategy, no download and no transmission appears in the produced actions. -/
theorem C10_theorem (chat_id chat_cfg : Int) (bodyS bodyR : List BotAction)
    (h : chat_id ≠ chat_cfg) :
    start_handler chat_id chat_cfg bodyS = [BotAction.reply private_notice] ∧
    random_hanime_handler chat_id chat_cfg bodyR = [BotAction.reply private_notice] ∧
    BotAction.fetch_random_page ∉ random_hanime_handler chat_id chat_cfg bodyR ∧
    (∀ u, BotAction.run_download u ∉ random_hanime_handler chat_id chat_cfg bodyR) ∧
    (∀ n, BotAction.send_document n ∉ random_hanime_handler chat_id chat_cfg bodyR) := by
  unfold start_handler random_hanime_handler
  simp [h]

/-- C10 witness: the guard at concrete distinct chat identifiers. -/
theorem C10_witness :
    (1 : Int) ≠ 2 ∧
    start_handler 1 2 [] = [BotAction.reply private_notice] ∧
    random_hanime_handler 1 2 [BotAction.fetch_random_page]
      = [BotAction.reply private_notice] ∧
    BotAction.fetch_random_page ∉ random_hanime_handler 1 2 [BotAction.fetch_random_page] ∧
    (∀ u, BotAction.run_download u ∉ random_hanime_handler 1 2 [BotAction.fetch_random_page]) ∧
    (∀ n, BotAction.send_document n ∉ random_hanime_handler 1 2 [BotAction.fetch_random_page]) :=
  ⟨by decide, C10_theorem 1 2 [] [BotAction.fetch_random_page] (by decide)⟩

end HanimeBot
